import Mathlib

/-!
Verification of the database connection lifecycle manager of the
MedScheduleAI Pro repository.

The development shallowly embeds the subsystem spread over
`src/server/src/config/database/errors.ts` (error classification,
retry-delay computation), `src/unnamed/part_003` (configuration and
error-taxonomy constants, a copy of `constants.ts`) and
`src/unnamed/part_004` (the connection manager: environment validation,
`connectDatabase` retry loop, health check, graceful shutdown).

Modelling conventions:
- JavaScript numbers that carry fractional values (the backoff
  computation with its random jitter) are embedded as rationals, with
  `Math.floor` as the integer floor into `ℤ`.
- `process.env` is a record of `Option String` fields; JavaScript
  falsiness of an env value (`undefined` or the empty string) is
  `envFalsy`.
- JavaScript `String.prototype.includes` over the lowercased message is
  `strContains (strToLower msg) pat`; `toLowerCase` is modelled as the
  per-character ASCII lowering (all classifier patterns are ASCII).
- The async manager is embedded as pure state passing: `DbState` mirrors
  the `DatabaseState` class, attempt outcomes and probe outcomes are
  inputs, emitted audit events are collected in a list (the
  `logAuditEvent` gate on the AUDIT_LOGGING flag is the `audit`
  parameter), and thrown errors are `Except` errors.
-/

-- ===========================================================================
-- String utilities (JS includes / toLowerCase on ASCII)
-- ===========================================================================

/-- Boolean prefix test on character lists. -/
def isPrefixChars : List Char → List Char → Bool
  | [], _ => true
  | _ :: _, [] => false
  | a :: as, b :: bs => a == b && isPrefixChars as bs

/-- Boolean contiguous-substring test on character lists, mirroring the
JavaScript `String.prototype.includes` semantics. -/
def containsChars (pat : List Char) : List Char → Bool
  | [] => isPrefixChars pat []
  | c :: rest => isPrefixChars pat (c :: rest) || containsChars pat rest

/-- `strContains s pat` is true when `pat` occurs contiguously in `s`,
as in the JavaScript `s.includes(pat)`. -/
def strContains (s pat : String) : Bool := containsChars pat.toList s.toList

/-- Per-character lowering, mirroring `String.prototype.toLowerCase` on
the ASCII strings the classifier works with. -/
def strToLower (s : String) : String := String.mk (s.toList.map Char.toLower)

-- ===========================================================================
-- Error taxonomy constants: src/unnamed/part_003 (constants.ts)
-- ===========================================================================

/-- One entry of the `DATABASE_ERRORS` table of `constants.ts`: a stable
code, a message, and a severity rank. The `description` and `action`
strings of the source table are not needed by any claim and are omitted. -/
structure ErrorConfig where
  code : String
  message : String
  severity : String
deriving DecidableEq, Repr

/-- `DATABASE_ERRORS.MISSING_MONGODB_URI` from constants.ts. -/
def MISSING_MONGODB_URI : ErrorConfig :=
  ⟨"DB_CONFIG_001", "MongoDB connection URI is not configured", "CRITICAL"⟩

/-- `DATABASE_ERRORS.MISSING_TEST_URI` from constants.ts. -/
def MISSING_TEST_URI : ErrorConfig :=
  ⟨"DB_CONFIG_002", "Test database URI is not configured for test environment", "HIGH"⟩

/-- `DATABASE_ERRORS.MISSING_PRODUCTION_SECURITY` from constants.ts. -/
def MISSING_PRODUCTION_SECURITY : ErrorConfig :=
  ⟨"DB_SECURITY_001", "Required security environment variables missing for production", "CRITICAL"⟩

/-- `DATABASE_ERRORS.WEAK_JWT_SECRET` from constants.ts. -/
def WEAK_JWT_SECRET : ErrorConfig :=
  ⟨"DB_SECURITY_002", "JWT secret must be at least 32 characters in production", "CRITICAL"⟩

/-- `DATABASE_ERRORS.CONNECTION_TIMEOUT` from constants.ts. -/
def CONNECTION_TIMEOUT : ErrorConfig :=
  ⟨"DB_CONN_001", "Database connection attempt timed out", "HIGH"⟩

/-- `DATABASE_ERRORS.CONNECTION_REFUSED` from constants.ts. -/
def CONNECTION_REFUSED : ErrorConfig :=
  ⟨"DB_CONN_002", "Database connection was refused", "HIGH"⟩

/-- `DATABASE_ERRORS.AUTHENTICATION_FAILED` from constants.ts. -/
def AUTHENTICATION_FAILED : ErrorConfig :=
  ⟨"DB_AUTH_001", "Database authentication failed", "HIGH"⟩

/-- `DATABASE_CONFIG.HEALTH_CHECK_TIMEOUT_MS` from constants.ts. -/
def HEALTH_CHECK_TIMEOUT_MS : ℕ := 5000

/-- `DATABASE_CONFIG.RETRY_ATTEMPTS` from constants.ts. -/
def RETRY_ATTEMPTS : ℕ := 5

-- ===========================================================================
-- Error classification: src/server/src/config/database/errors.ts
-- ===========================================================================

/-- A thrown `DatabaseError` of errors.ts, reduced to the data the claims
observe: the selected taxonomy entry and the message of the wrapped
original error (`originalError`). -/
structure DatabaseError where
  config : ErrorConfig
  originalMsg : String
deriving DecidableEq, Repr

/-- `classifyConnectionError` of errors.ts lines 107 to 129: lowercase the
message, test the timeout patterns first, then the refused patterns, then
the authentication patterns, and fall back to the timeout entry. -/
def classifyConnectionError (msg : String) : DatabaseError :=
  let m := strToLower msg
  if strContains m "timeout" || strContains m "timed out" then
    ⟨CONNECTION_TIMEOUT, msg⟩
  else if strContains m "econnrefused" || strContains m "connection refused" then
    ⟨CONNECTION_REFUSED, msg⟩
  else if strContains m "authentication failed" || strContains m "unauthorized"
      || strContains m "invalid credentials" then
    ⟨AUTHENTICATION_FAILED, msg⟩
  else
    ⟨CONNECTION_TIMEOUT, msg⟩

/-- The `recoverablePatterns` list of `isRecoverableError` in errors.ts. -/
def recoverablePatterns : List String :=
  ["timeout", "network", "temporary", "connection reset",
   "connection lost", "server selection", "dns"]

/-- The `nonRecoverablePatterns` list of `isRecoverableError` in errors.ts. -/
def nonRecoverablePatterns : List String :=
  ["authentication failed", "unauthorized", "invalid credentials",
   "access denied", "bad auth", "authentication error"]

/-- `isRecoverableError` of errors.ts lines 136 to 167: non-recoverable
patterns are checked first and force `false`; otherwise the message is
recoverable exactly when some recoverable pattern occurs in it. -/
def isRecoverableError (msg : String) : Bool :=
  let m := strToLower msg
  if nonRecoverablePatterns.any (fun pat => strContains m pat) then false
  else recoverablePatterns.any (fun pat => strContains m pat)

-- ===========================================================================
-- Retry delay: errors.ts lines 176 to 188
-- ===========================================================================

/-- `calculateRetryDelay` of errors.ts: exponential delay
`min(baseDelay * 2 ^ (attempt - 1), maxDelay)`, perturbed by the jitter
term `exponentialDelay * 0.25 * (rand - 0.5)` where `rand` stands for the
`Math.random()` draw in `[0, 1)`, and floored to an integer. -/
def calculateRetryDelay (attempt : ℕ) (baseDelay maxDelay : ℚ) (rand : ℚ) : ℤ :=
  let exponentialDelay : ℚ := min (baseDelay * 2 ^ (attempt - 1)) maxDelay
  let jitter : ℚ := exponentialDelay * (1/4) * (rand - 1/2)
  ⌊exponentialDelay + jitter⌋

-- ===========================================================================
-- Environment model and validation: src/unnamed/part_004 lines 56 to 104
-- ===========================================================================

/-- The slice of `process.env` read by the database module. A field is
`none` when the variable is unset; JavaScript also treats the empty
string as absent (falsy), see `envFalsy`. -/
structure Env where
  MONGODB_URI : Option String
  MONGODB_TEST_URI : Option String
  NODE_ENV : String
  JWT_SECRET : Option String
  BCRYPT_ROUNDS : Option String
  AUDIT_LOGGING : Option String
deriving DecidableEq, Repr

/-- JavaScript falsiness of an env value: unset or the empty string. -/
def envFalsy : Option String → Bool
  | none => true
  | some s => s.isEmpty

/-- Line 57: `DATABASE_URI = NODE_ENV === 'test' ? MONGODB_TEST_URI : MONGODB_URI`,
the URI actually used for the active deployment tier. -/
def DATABASE_URI (env : Env) : Option String :=
  if env.NODE_ENV = "test" then env.MONGODB_TEST_URI else env.MONGODB_URI

/-- The `requiredSecurityVars` list of `validateDatabaseEnvironment`. -/
def requiredSecurityVars : List String :=
  ["JWT_SECRET", "BCRYPT_ROUNDS", "AUDIT_LOGGING"]

/-- Dynamic `process.env[varName]` lookup for the names the validator uses. -/
def envGet (env : Env) (name : String) : Option String :=
  if name = "JWT_SECRET" then env.JWT_SECRET
  else if name = "BCRYPT_ROUNDS" then env.BCRYPT_ROUNDS
  else if name = "AUDIT_LOGGING" then env.AUDIT_LOGGING
  else none

/-- `validateDatabaseEnvironment` of part_004 lines 70 to 95. The source
is a sequence of guarded throws; the embedding chains them as an
`Except`. Note the first check is on `MONGODB_URI` in every tier, and the
production security checks run only after the URI checks pass. -/
def validateDatabaseEnvironment (env : Env) : Except ErrorConfig Unit :=
  if envFalsy env.MONGODB_URI then .error MISSING_MONGODB_URI
  else if env.NODE_ENV = "test" && envFalsy env.MONGODB_TEST_URI then .error MISSING_TEST_URI
  else if env.NODE_ENV = "production" then
    let missingVars := requiredSecurityVars.filter (fun v => envFalsy (envGet env v))
    if missingVars.length > 0 then .error MISSING_PRODUCTION_SECURITY
    else
      match env.JWT_SECRET with
      | some jwtSecret =>
          if !jwtSecret.isEmpty && jwtSecret.length < 32 then .error WEAK_JWT_SECRET
          else .ok ()
      | none => .ok ()
  else .ok ()

-- ===========================================================================
-- Connection state: the DatabaseState class, part_004 lines 156 to 199
-- ===========================================================================

/-- The mutable `DatabaseState` singleton together with the driver-owned
`mongoose.connection.readyState` it consults (1 means connected). The
`lastHealthCheck` timestamp field of the source class is read by no claim
and is omitted. -/
structure DbState where
  connectedFlag : Bool
  readyState : ℕ
  connectionAttempts : ℕ
  isShuttingDown : Bool
deriving DecidableEq, Repr

/-- The `isConnected` getter: the internal flag AND the driver ready-state
being 1 ("connected"). -/
def DbState.isConnected (s : DbState) : Bool :=
  s.connectedFlag && s.readyState == 1

/-- Process start state: all fields false or zero. -/
def freshState : DbState := ⟨false, 0, 0, false⟩

/-- Audit event kinds emitted by the manager (the `DATABASE_EVENTS` used
in part_004). -/
inductive DbEvent
  | CONNECTION_ESTABLISHED
  | CONNECTION_FAILED
  | CONNECTION_LOST
  | CONNECTION_RESTORED
  | CONNECTION_TERMINATED
  | SYSTEM_ERROR
  | GRACEFUL_SHUTDOWN_INITIATED
  | GRACEFUL_SHUTDOWN_COMPLETED
  | EMERGENCY_SHUTDOWN
deriving DecidableEq, Repr

/-- `logAuditEvent` gate (part_004 lines 217 to 237): an event reaches the
audit sink only when the AUDIT_LOGGING flag is on. -/
def auditIf (audit : Bool) (e : DbEvent) : List DbEvent :=
  if audit then [e] else []

/-- Outcome of one underlying `mongoose.connect` call: success, or a
rejection with the raw error message. -/
inductive AttemptResult
  | success
  | failure (msg : String)

/-- `safeErrorMessage` applied to the possibly-never-assigned `lastError`
local of `connectDatabase`: an absent error yields the fixed placeholder
text of errors.ts line 219. -/
def safeErrorMessageOpt : Option String → String
  | some m => m
  | none => "Unknown error occurred"

-- ===========================================================================
-- connectDatabase: part_004 lines 255 to 315
-- ===========================================================================

/-- The `while (dbState.connectionAttempts < retries)` loop of
`connectDatabase`, embedded with explicit fuel. The caller passes
`fuel = retries - connectionAttempts`; since each iteration increments
`connectionAttempts` by exactly one and nothing else changes it, the fuel
stays equal to `retries - connectionAttempts` throughout, so `fuel = 0`
is exactly the loop exit (the line 314 throw of a bare
`CONNECTION_TIMEOUT` error wrapping `safeErrorMessage(lastError)`), and
the inner `if (dbState.connectionAttempts < retries)` test after a failed
attempt is exactly `0 < fuel`. `outcomes n` is the result of the n-th
numbered attempt. On success the driver reports ready-state 1 and the
manager sets its flag and resets the counter (lines 282 to 283), emitting
`CONNECTION_ESTABLISHED`; on the last allowed failure it emits
`CONNECTION_FAILED` and throws the classified last raw error (lines 307
to 309). -/
def connectLoop (outcomes : ℕ → AttemptResult) (audit : Bool) :
    ℕ → DbState → Option String → Except DatabaseError Unit × DbState × List DbEvent
  | 0, s, lastError =>
      (.error ⟨CONNECTION_TIMEOUT, safeErrorMessageOpt lastError⟩, s, [])
  | fuel + 1, s, _ =>
      let s1 : DbState := { s with connectionAttempts := s.connectionAttempts + 1 }
      match outcomes s1.connectionAttempts with
      | .success =>
          let s2 : DbState :=
            { s1 with connectedFlag := true, readyState := 1, connectionAttempts := 0 }
          (.ok (), s2, auditIf audit .CONNECTION_ESTABLISHED)
      | .failure m =>
          if 0 < fuel then
            connectLoop outcomes audit fuel s1 (some m)
          else
            (.error (classifyConnectionError m), s1, auditIf audit .CONNECTION_FAILED)

/-- `connectDatabase` of part_004: reuse the existing connection when the
state reports connected (lines 264 to 268, no attempt, no event),
otherwise run the retry loop starting from the current attempt counter.
The backoff sleep between attempts has no observable effect in this
time-free embedding. -/
def connectDatabase (retries : ℕ) (outcomes : ℕ → AttemptResult) (audit : Bool)
    (s : DbState) : Except DatabaseError Unit × DbState × List DbEvent :=
  if s.isConnected then (.ok (), s, [])
  else connectLoop outcomes audit (retries - s.connectionAttempts) s none

/-- A sequence of `connectDatabase` calls, each with its own retries
bound, outcome schedule, and audit flag, threading the manager state. -/
def runConnects (calls : List (ℕ × (ℕ → AttemptResult) × Bool)) (s : DbState) : DbState :=
  calls.foldl (fun st c => (connectDatabase c.1 c.2.1 c.2.2 st).2.1) s

-- ===========================================================================
-- Startup ordering: module initialization, part_004 lines 97 to 104
-- ===========================================================================

/-- Module initialization followed by the first connect call: the source
validates the environment at module load (lines 97 to 104) and rethrows,
so a validation error occurs before `connectDatabase` can run. A thrown
startup error is either the validation error (left) or a connect error
(right). -/
def startupConnect (env : Env) (retries : ℕ) (outcomes : ℕ → AttemptResult)
    (audit : Bool) : Except (ErrorConfig ⊕ DatabaseError) Unit × DbState × List DbEvent :=
  match validateDatabaseEnvironment env with
  | .error e => (.error (.inl e), freshState, [])
  | .ok _ =>
      match connectDatabase retries outcomes audit freshState with
      | (.ok _, s, evs) => (.ok (), s, evs)
      | (.error e, s, evs) => (.error (.inr e), s, evs)

-- ===========================================================================
-- Health check: checkDatabaseHealth, part_004 lines 364 to 405
-- ===========================================================================

/-- The `HealthCheckResult` shape: the not-connected early returns carry
no response time, every unhealthy result carries an error string. -/
structure HealthCheckResult where
  isHealthy : Bool
  responseTime : Option ℕ
  error : Option String
deriving DecidableEq, Repr

/-- Behaviour of the `db.admin().ping()` probe: it resolves successfully
after `t` milliseconds, rejects after `t` milliseconds with a message, or
never resolves. -/
inductive ProbeOutcome
  | resolvesOk (t : ℕ)
  | resolvesErr (t : ℕ) (msg : String)
  | hangs

/-- `checkDatabaseHealth`: fail fast with no probe when the state flag or
the driver ready-state is not connected (lines 368 to 373) or the db
handle is unavailable (lines 377 to 382); otherwise race the probe
against the `HEALTH_CHECK_TIMEOUT_MS` delay (lines 384 to 389): whichever
resolves first decides the result, a timeout win throwing into the catch
block which returns unhealthy data. The second component records whether
a network probe was issued. All outcomes are returned as data; the
function has no throwing path. -/
def checkDatabaseHealth (s : DbState) (dbAvailable : Bool) (probe : ProbeOutcome) :
    HealthCheckResult × Bool :=
  if !s.isConnected || s.readyState != 1 then
    (⟨false, none, some "Database is not connected"⟩, false)
  else if !dbAvailable then
    (⟨false, none, some "Database connection not available"⟩, false)
  else
    match probe with
    | .resolvesOk t =>
        if t < HEALTH_CHECK_TIMEOUT_MS then (⟨true, some t, none⟩, true)
        else (⟨false, some HEALTH_CHECK_TIMEOUT_MS, some "Health check timeout"⟩, true)
    | .resolvesErr t m =>
        if t < HEALTH_CHECK_TIMEOUT_MS then (⟨false, some t, some m⟩, true)
        else (⟨false, some HEALTH_CHECK_TIMEOUT_MS, some "Health check timeout"⟩, true)
    | .hangs =>
        (⟨false, some HEALTH_CHECK_TIMEOUT_MS, some "Health check timeout"⟩, true)

-- ===========================================================================
-- Disconnect and graceful shutdown: part_004 lines 328 to 345 and 482 to 513
-- ===========================================================================

/-- What the process does after shutdown handling. -/
inductive ExitAction
  | exitSuccess
  | exitFailure
  | noExit
deriving DecidableEq, Repr

/-- `disconnectDatabase`: a no-op when not connected; otherwise the
underlying `mongoose.disconnect` either succeeds (clear the flag, emit
`CONNECTION_TERMINATED`) or rejects with a message (emit `SYSTEM_ERROR`
and rethrow), per the outcome parameter `failMsg`. -/
def disconnectDatabase (audit : Bool) (failMsg : Option String) (s : DbState) :
    Except String Unit × DbState × List DbEvent :=
  if !s.isConnected then (.ok (), s, [])
  else
    match failMsg with
    | none => (.ok (), { s with connectedFlag := false }, auditIf audit .CONNECTION_TERMINATED)
    | some m => (.error m, s, auditIf audit .SYSTEM_ERROR)

/-- `gracefulShutdown`: when a shutdown is already in progress, log a
warning and return with no state change, no event, no exit (lines 483 to
486). Otherwise set the flag, emit `GRACEFUL_SHUTDOWN_INITIATED`, and
either the forced-exit deadline fires first (emit `EMERGENCY_SHUTDOWN`,
exit failure) or the disconnect finishes: on success emit
`GRACEFUL_SHUTDOWN_COMPLETED` and exit success, on error emit
`SYSTEM_ERROR` and exit failure. The signal name only feeds log text. -/
def gracefulShutdown (signal : String) (audit : Bool) (deadlineExceeded : Bool)
    (failMsg : Option String) (s : DbState) : DbState × List DbEvent × ExitAction :=
  if s.isShuttingDown then (s, [], .noExit)
  else
    let s1 : DbState := { s with isShuttingDown := true }
    let evs0 := auditIf audit .GRACEFUL_SHUTDOWN_INITIATED
    if deadlineExceeded then
      (s1, evs0 ++ auditIf audit .EMERGENCY_SHUTDOWN, .exitFailure)
    else
      match disconnectDatabase audit failMsg s1 with
      | (.ok _, s2, devs) =>
          (s2, evs0 ++ devs ++ auditIf audit .GRACEFUL_SHUTDOWN_COMPLETED, .exitSuccess)
      | (.error _, s2, devs) =>
          (s2, evs0 ++ devs ++ auditIf audit .SYSTEM_ERROR, .exitFailure)

-- ===========================================================================
-- C1: backoff bounds
-- ===========================================================================

/-- Claim C1 counterexample. The claim states that the delay returned by
calculateRetryDelay never exceeds max and is at least 0.75 times the
capped exponential delay. Both bounds fail on the code: the jitter is
added after the min-cap, so with attempt 1, base 1000, max 1000 and a
jitter draw of 0.9 the delay is 1100, above max; and with attempt 1,
base 1, max 1 and a draw of 0 the floored delay is 0, below 0.75 times
the capped exponential delay of 1. -/
theorem c1_backoff_counterexample :
    (calculateRetryDelay 1 1000 1000 (9/10) = 1100 ∧
      1000 < calculateRetryDelay 1 1000 1000 (9/10)) ∧
    (calculateRetryDelay 1 1 1 0 = 0 ∧
      (calculateRetryDelay 1 1 1 0 : ℚ) < (3/4) * min ((1 : ℚ) * 2 ^ ((1 : ℕ) - 1)) 1) := by
  refine ⟨⟨?_, ?_⟩, ?_, ?_⟩ <;> norm_num [calculateRetryDelay]

/-- Claim C1, amended. For every attempt number n at least 1, base and
max at least 0 and jitter draw r in [0, 1), calculateRetryDelay returns
an integer delay d with 0 ≤ d, and with e := min(base * 2 ^ (n-1), max)
the bounds (7/8) * e - 1 < d ≤ (9/8) * e hold: the code perturbs the
capped exponential delay by up to plus or minus 12.5 percent (not 25
percent), the cap is applied before the jitter so d may exceed max by up
to 12.5 percent, and flooring may lose one further unit below. -/
theorem c1_backoff_bounds (attempt : ℕ) (base maxD r : ℚ)
    (hA : 1 ≤ attempt) (hb : 0 ≤ base) (hm : 0 ≤ maxD) (hr0 : 0 ≤ r) (hr1 : r < 1) :
    0 ≤ calculateRetryDelay attempt base maxD r ∧
    (7/8) * min (base * 2 ^ (attempt - 1)) maxD - 1 <
      (calculateRetryDelay attempt base maxD r : ℚ) ∧
    (calculateRetryDelay attempt base maxD r : ℚ) ≤
      (9/8) * min (base * 2 ^ (attempt - 1)) maxD := by
  simp only [calculateRetryDelay]
  set e : ℚ := min (base * 2 ^ (attempt - 1)) maxD with he
  have he0 : 0 ≤ e := le_min (by positivity) hm
  have hj1 : e * (1/4) * (r - 1/2) ≤ e * (1/8) := by nlinarith
  have hj2 : -(e * (1/8)) ≤ e * (1/4) * (r - 1/2) := by nlinarith
  have hx0 : 0 ≤ e + e * (1/4) * (r - 1/2) := by nlinarith
  refine ⟨Int.floor_nonneg.mpr hx0, ?_, ?_⟩
  · have hfl := Int.sub_one_lt_floor (e + e * (1/4) * (r - 1/2))
    linarith
  · have hfl := Int.floor_le (e + e * (1/4) * (r - 1/2))
    linarith

/-- Witness for the amended C1 bounds at attempt 1, base 1000, max 30000
and the central jitter draw 1/2. -/
theorem c1_backoff_bounds_witness :
    0 ≤ calculateRetryDelay 1 1000 30000 (1/2) ∧
    (7/8) * min ((1000 : ℚ) * 2 ^ ((1 : ℕ) - 1)) 30000 - 1 <
      (calculateRetryDelay 1 1000 30000 (1/2) : ℚ) ∧
    (calculateRetryDelay 1 1000 30000 (1/2) : ℚ) ≤
      (9/8) * min ((1000 : ℚ) * 2 ^ ((1 : ℕ) - 1)) 30000 :=
  c1_backoff_bounds 1 1000 30000 (1/2) (by norm_num) (by norm_num) (by norm_num)
    (by norm_num) (by norm_num)

-- ===========================================================================
-- C8: idempotent shutdown
-- ===========================================================================

/-- Claim C8. If isShuttingDown is already true, a further invocation of
gracefulShutdown leaves every field of the connection state unchanged,
emits no audit event, performs no disconnect and does not exit the
process: it returns after the warning log only. -/
theorem c8_idempotent_shutdown (signal : String) (audit deadlineExceeded : Bool)
    (failMsg : Option String) (s : DbState) (h : s.isShuttingDown = true) :
    gracefulShutdown signal audit deadlineExceeded failMsg s = (s, [], ExitAction.noExit) := by
  unfold gracefulShutdown
  rw [if_pos h]

/-- Witness for C8: a second shutdown on a state already shutting down is
a no-op with no event and no exit. -/
theorem c8_idempotent_shutdown_witness :
    gracefulShutdown "SIGTERM" true false none ⟨true, 1, 0, true⟩ =
      (⟨true, 1, 0, true⟩, [], ExitAction.noExit) :=
  c8_idempotent_shutdown "SIGTERM" true false none ⟨true, 1, 0, true⟩ rfl

-- ===========================================================================
-- C4 / C5: environment validation
-- ===========================================================================

/-- The positivity test on `missingVars.length` of the validator is
exactly the falsiness of one of the three required security variables. -/
theorem missingVars_pos_iff (env : Env) :
    0 < (requiredSecurityVars.filter (fun v => envFalsy (envGet env v))).length ↔
      (envFalsy env.JWT_SECRET = true ∨ envFalsy env.BCRYPT_ROUNDS = true ∨
        envFalsy env.AUDIT_LOGGING = true) := by
  cases hJ : envFalsy env.JWT_SECRET <;>
    cases hB : envFalsy env.BCRYPT_ROUNDS <;>
      cases hA : envFalsy env.AUDIT_LOGGING <;>
        simp [requiredSecurityVars, envGet, List.filter, hJ, hB, hA]

/-- Claim C4 counterexample. In the production tier with no signing
secret configured, the claim requires the missing-security-config error;
but when the store URI is also unset the validator throws the
missing-URI error first, so the claimed implication fails as stated. -/
theorem c4_counterexample :
    validateDatabaseEnvironment ⟨none, none, "production", none, none, none⟩ =
      .error MISSING_MONGODB_URI ∧
    MISSING_MONGODB_URI ≠ MISSING_PRODUCTION_SECURITY := by
  exact ⟨rfl, by decide⟩

/-- Claim C4, amended: provided MONGODB_URI is configured (truthy), in
the production tier a falsy JWT_SECRET, BCRYPT_ROUNDS or AUDIT_LOGGING
yields the missing-security error; all three present with a JWT secret
shorter than 32 characters yields the weak-secret error; outside the
production tier validation never produces either security error; and a
validation failure at module initialization is surfaced before any
connection attempt is made (the manager state still has zero attempts). -/
theorem c4_hardened_validation :
    (∀ env : Env, env.NODE_ENV = "production" → envFalsy env.MONGODB_URI = false →
      (envFalsy env.JWT_SECRET = true ∨ envFalsy env.BCRYPT_ROUNDS = true ∨
        envFalsy env.AUDIT_LOGGING = true) →
      validateDatabaseEnvironment env = .error MISSING_PRODUCTION_SECURITY) ∧
    (∀ (env : Env) (secret : String), env.NODE_ENV = "production" →
      envFalsy env.MONGODB_URI = false → env.JWT_SECRET = some secret →
      secret.isEmpty = false → envFalsy env.BCRYPT_ROUNDS = false →
      envFalsy env.AUDIT_LOGGING = false → secret.length < 32 →
      validateDatabaseEnvironment env = .error WEAK_JWT_SECRET) ∧
    (∀ env : Env, env.NODE_ENV ≠ "production" →
      validateDatabaseEnvironment env = .ok () ∨
      validateDatabaseEnvironment env = .error MISSING_MONGODB_URI ∨
      validateDatabaseEnvironment env = .error MISSING_TEST_URI) ∧
    (∀ (env : Env) (retries : ℕ) (outcomes : ℕ → AttemptResult) (audit : Bool)
        (e : ErrorConfig), validateDatabaseEnvironment env = .error e →
      startupConnect env retries outcomes audit = (.error (.inl e), freshState, [])) := by
  refine ⟨?_, ?_, ?_, ?_⟩
  · intro env h1 h2 h3
    unfold validateDatabaseEnvironment
    rw [h2, h1]
    rw [if_pos ((missingVars_pos_iff env).mpr h3)]
    simp
  · intro env secret h1 h2 h3 h4 h5 h6 h7
    unfold validateDatabaseEnvironment
    rw [h2, h1]
    have hmiss : ¬ 0 < (requiredSecurityVars.filter
        (fun v => envFalsy (envGet env v))).length := by
      rw [missingVars_pos_iff]
      simp only [not_or]
      refine ⟨?_, by simp [h5], by simp [h6]⟩
      simp [h3, envFalsy, h4]
    rw [if_neg hmiss]
    simp [h3, h4, h7]
  · intro env h
    unfold validateDatabaseEnvironment
    by_cases h1 : envFalsy env.MONGODB_URI = true
    · rw [if_pos h1]
      exact Or.inr (Or.inl rfl)
    · rw [if_neg h1]
      by_cases h2 : (env.NODE_ENV = "test" && envFalsy env.MONGODB_TEST_URI) = true
      · rw [if_pos h2]
        exact Or.inr (Or.inr rfl)
      · rw [if_neg h2, if_neg h]
        exact Or.inl rfl
  · intro env retries outcomes audit e h
    unfold startupConnect
    rw [h]

/-- Witness for the amended C4: concrete production environments with a
configured store URI hitting the missing-security and weak-secret
errors, a development environment with no security keys validating
cleanly, and a failing validation short-circuiting startup with zero
connection attempts. -/
theorem c4_hardened_validation_witness :
    validateDatabaseEnvironment
        ⟨some "mongodb://db", none, "production", none, some "12", some "true"⟩ =
      .error MISSING_PRODUCTION_SECURITY ∧
    validateDatabaseEnvironment
        ⟨some "mongodb://db", none, "production", some "shortsecret12345678",
          some "12", some "true"⟩ = .error WEAK_JWT_SECRET ∧
    (validateDatabaseEnvironment ⟨some "mongodb://db", none, "development",
        none, none, none⟩ = .ok () ∨
      validateDatabaseEnvironment ⟨some "mongodb://db", none, "development",
        none, none, none⟩ = .error MISSING_MONGODB_URI ∨
      validateDatabaseEnvironment ⟨some "mongodb://db", none, "development",
        none, none, none⟩ = .error MISSING_TEST_URI) ∧
    startupConnect ⟨none, none, "development", none, none, none⟩ 3
        (fun _ => .success) true =
      (.error (.inl MISSING_MONGODB_URI), freshState, []) :=
  ⟨c4_hardened_validation.1 _ rfl rfl (Or.inl rfl),
   c4_hardened_validation.2.1 _ "shortsecret12345678" rfl rfl rfl (by decide)
     rfl rfl (by decide),
   c4_hardened_validation.2.2.1 _ (by decide),
   c4_hardened_validation.2.2.2 _ 3 (fun _ => .success) true MISSING_MONGODB_URI rfl⟩

/-- Claim C5 counterexample. In the test tier with the dedicated test URI
configured but MONGODB_URI unset, the active-tier URI (DATABASE_URI) is
configured, yet validation still fails with the missing-connection-URI
error: the URI check is on MONGODB_URI in every tier, not on the active
URI. -/
theorem c5_counterexample :
    validateDatabaseEnvironment
        ⟨none, some "mongodb://localhost/appdb-test", "test", none, none, none⟩ =
      .error MISSING_MONGODB_URI ∧
    envFalsy (DATABASE_URI
        ⟨none, some "mongodb://localhost/appdb-test", "test", none, none, none⟩) = false := by
  exact ⟨rfl, rfl⟩

/-- Claim C5, amended: validation fails with the missing-connection-URI
error exactly when MONGODB_URI is unset or empty, regardless of the
active tier; and it fails with the missing-test-URI error when the tier
is test, MONGODB_URI is configured, and the dedicated test URI is not. -/
theorem c5_uri_validation :
    (∀ env : Env, validateDatabaseEnvironment env = .error MISSING_MONGODB_URI ↔
      envFalsy env.MONGODB_URI = true) ∧
    (∀ env : Env, env.NODE_ENV = "test" → envFalsy env.MONGODB_URI = false →
      envFalsy env.MONGODB_TEST_URI = true →
      validateDatabaseEnvironment env = .error MISSING_TEST_URI) := by
  constructor
  · intro env
    constructor
    · intro heq
      by_cases h1 : envFalsy env.MONGODB_URI = true
      · exact h1
      · exfalso
        simp only [validateDatabaseEnvironment] at heq
        rw [if_neg h1] at heq
        by_cases h2 : (env.NODE_ENV = "test" && envFalsy env.MONGODB_TEST_URI) = true
        · rw [if_pos h2] at heq
          simp [MISSING_TEST_URI, MISSING_MONGODB_URI] at heq
        · rw [if_neg h2] at heq
          by_cases h3 : env.NODE_ENV = "production"
          · rw [if_pos h3] at heq
            by_cases h4 : (requiredSecurityVars.filter
                (fun v => envFalsy (envGet env v))).length > 0
            · rw [if_pos h4] at heq
              simp [MISSING_PRODUCTION_SECURITY, MISSING_MONGODB_URI] at heq
            · rw [if_neg h4] at heq
              cases hJ : env.JWT_SECRET with
              | none =>
                  rw [hJ] at heq
                  simp at heq
              | some secret =>
                  rw [hJ] at heq
                  have heq2 : (if (!secret.isEmpty && decide (secret.length < 32)) = true
                      then (Except.error WEAK_JWT_SECRET : Except ErrorConfig Unit)
                      else Except.ok ()) = Except.error MISSING_MONGODB_URI := heq
                  split_ifs at heq2
                  simp [WEAK_JWT_SECRET, MISSING_MONGODB_URI] at heq2
          · rw [if_neg h3] at heq
            simp at heq
    · intro h
      simp only [validateDatabaseEnvironment]
      rw [if_pos h]
  · intro env h1 h2 h3
    simp only [validateDatabaseEnvironment]
    rw [if_neg (by simp [h2]), if_pos (by simp [h1, h3])]

/-- Witness for the amended C5 at concrete environments: a falsy main
URI yields the missing-URI error in the development tier, and a test
tier with a main URI but no test URI yields the missing-test-URI error. -/
theorem c5_uri_validation_witness :
    (validateDatabaseEnvironment ⟨some "", none, "development", none, none, none⟩ =
        .error MISSING_MONGODB_URI ↔
      envFalsy (some "") = true) ∧
    validateDatabaseEnvironment ⟨some "mongodb://db", none, "test", none, none, none⟩ =
      .error MISSING_TEST_URI :=
  ⟨c5_uri_validation.1 ⟨some "", none, "development", none, none, none⟩,
   c5_uri_validation.2 ⟨some "mongodb://db", none, "test", none, none, none⟩ rfl rfl rfl⟩

-- ===========================================================================
-- C3: classifier correctness
-- ===========================================================================

/-- Claim C3 counterexample. The claim states that any message whose
lowercasing contains "connection refused" is classified with the
connection-refused code; but the timeout patterns are tested first, so a
message containing both substrings gets the timeout code. -/
theorem c3_classifier_counterexample :
    strContains (strToLower "Connection refused after timeout") "connection refused" = true ∧
    (classifyConnectionError "Connection refused after timeout").config = CONNECTION_TIMEOUT ∧
    CONNECTION_TIMEOUT ≠ CONNECTION_REFUSED := by
  refine ⟨by decide, by decide, by decide⟩

/-- Claim C3, amended. Classification tests the timeout substrings first
and the refused substrings before the authentication ones, so: a message
containing "connection refused" but no timeout substring classifies as
connection-refused; a message containing "authentication failed" but no
timeout or refused substring classifies as authentication-failed; a
message containing none of the recognized substrings falls back to the
connection-timeout entry. isRecoverableError is false for every message
containing "unauthorized", true for every message containing "timeout"
and none of the six authentication keywords, and false for any message
matching neither pattern list. All containment is on the lowercased
message. -/
theorem c3_classifier :
    (∀ msg : String, strContains (strToLower msg) "connection refused" = true →
      strContains (strToLower msg) "timeout" = false →
      strContains (strToLower msg) "timed out" = false →
      (classifyConnectionError msg).config = CONNECTION_REFUSED) ∧
    (∀ msg : String, strContains (strToLower msg) "authentication failed" = true →
      strContains (strToLower msg) "timeout" = false →
      strContains (strToLower msg) "timed out" = false →
      strContains (strToLower msg) "econnrefused" = false →
      strContains (strToLower msg) "connection refused" = false →
      (classifyConnectionError msg).config = AUTHENTICATION_FAILED) ∧
    (∀ msg : String, strContains (strToLower msg) "timeout" = false →
      strContains (strToLower msg) "timed out" = false →
      strContains (strToLower msg) "econnrefused" = false →
      strContains (strToLower msg) "connection refused" = false →
      strContains (strToLower msg) "authentication failed" = false →
      strContains (strToLower msg) "unauthorized" = false →
      strContains (strToLower msg) "invalid credentials" = false →
      (classifyConnectionError msg).config = CONNECTION_TIMEOUT) ∧
    (∀ msg : String, strContains (strToLower msg) "unauthorized" = true →
      isRecoverableError msg = false) ∧
    (∀ msg : String, strContains (strToLower msg) "timeout" = true →
      strContains (strToLower msg) "authentication failed" = false →
      strContains (strToLower msg) "unauthorized" = false →
      strContains (strToLower msg) "invalid credentials" = false →
      strContains (strToLower msg) "access denied" = false →
      strContains (strToLower msg) "bad auth" = false →
      strContains (strToLower msg) "authentication error" = false →
      isRecoverableError msg = true) ∧
    (∀ msg : String,
      (∀ pat ∈ nonRecoverablePatterns, strContains (strToLower msg) pat = false) →
      (∀ pat ∈ recoverablePatterns, strContains (strToLower msg) pat = false) →
      isRecoverableError msg = false) := by
  refine ⟨?_, ?_, ?_, ?_, ?_, ?_⟩
  · intro msg h1 h2 h3
    simp [classifyConnectionError, h1, h2, h3]
  · intro msg h1 h2 h3 h4 h5
    simp [classifyConnectionError, h1, h2, h3, h4, h5]
  · intro msg h1 h2 h3 h4 h5 h6 h7
    simp [classifyConnectionError, h1, h2, h3, h4, h5, h6, h7]
  · intro msg h1
    simp [isRecoverableError, nonRecoverablePatterns, h1]
  · intro msg h1 h2 h3 h4 h5 h6 h7
    simp [isRecoverableError, nonRecoverablePatterns, recoverablePatterns,
      h1, h2, h3, h4, h5, h6, h7]
  · intro msg h1 h2
    have hn : ∀ pat ∈ nonRecoverablePatterns, strContains (strToLower msg) pat = false := h1
    have hr : ∀ pat ∈ recoverablePatterns, strContains (strToLower msg) pat = false := h2
    simp only [nonRecoverablePatterns] at hn
    simp only [recoverablePatterns] at hr
    simp [isRecoverableError, nonRecoverablePatterns, recoverablePatterns,
      hn "authentication failed" (by simp), hn "unauthorized" (by simp),
      hn "invalid credentials" (by simp), hn "access denied" (by simp),
      hn "bad auth" (by simp), hn "authentication error" (by simp),
      hr "timeout" (by simp), hr "network" (by simp), hr "temporary" (by simp),
      hr "connection reset" (by simp), hr "connection lost" (by simp),
      hr "server selection" (by simp), hr "dns" (by simp)]

/-- Witness for the amended C3 at the concrete messages of the spec. -/
theorem c3_classifier_witness :
    (classifyConnectionError "connection refused").config = CONNECTION_REFUSED ∧
    (classifyConnectionError "authentication failed").config = AUTHENTICATION_FAILED ∧
    (classifyConnectionError "mystery failure").config = CONNECTION_TIMEOUT ∧
    isRecoverableError "unauthorized" = false ∧
    isRecoverableError "timeout" = true ∧
    isRecoverableError "mystery failure" = false :=
  ⟨c3_classifier.1 "connection refused" (by decide) (by decide) (by decide),
   c3_classifier.2.1 "authentication failed" (by decide) (by decide) (by decide)
     (by decide) (by decide),
   c3_classifier.2.2.1 "mystery failure" (by decide) (by decide) (by decide)
     (by decide) (by decide) (by decide) (by decide),
   c3_classifier.2.2.2.1 "unauthorized" (by decide),
   c3_classifier.2.2.2.2.1 "timeout" (by decide) (by decide) (by decide)
     (by decide) (by decide) (by decide) (by decide),
   c3_classifier.2.2.2.2.2 "mystery failure" (by decide) (by decide)⟩

-- ===========================================================================
-- Connect loop lemmas
-- ===========================================================================

/-- When every attempt fails, the loop with at least one unit of fuel
consumes all of it, adds it to the attempt counter, emits the
CONNECTION_FAILED event (under the audit gate) and throws the
classification of the last raw error. -/
theorem connectLoop_all_fail (msgOf : ℕ → String) (outcomes : ℕ → AttemptResult)
    (audit : Bool) (hfail : ∀ n, outcomes n = .failure (msgOf n)) :
    ∀ (fuel : ℕ) (s : DbState) (lastError : Option String), 1 ≤ fuel →
      connectLoop outcomes audit fuel s lastError =
        (.error (classifyConnectionError (msgOf (s.connectionAttempts + fuel))),
         { s with connectionAttempts := s.connectionAttempts + fuel },
         auditIf audit .CONNECTION_FAILED) := by
  intro fuel
  induction fuel with
  | zero => intro s lastError h; omega
  | succ k ih =>
    intro s lastError h
    simp only [connectLoop, hfail]
    by_cases hk : 1 ≤ k
    · rw [if_pos (by omega)]
      rw [ih _ _ hk]
      have harith : s.connectionAttempts + 1 + k = s.connectionAttempts + (k + 1) := by omega
      simp [harith]
    · have hk0 : k = 0 := by omega
      subst hk0
      simp

/-- If the loop returns success, the resulting state reports connected
and has a reset attempt counter. -/
theorem connectLoop_ok_connected (outcomes : ℕ → AttemptResult) (audit : Bool) :
    ∀ (fuel : ℕ) (s : DbState) (lastError : Option String) (r : Unit) (s' : DbState)
      (evs : List DbEvent),
      connectLoop outcomes audit fuel s lastError = (.ok r, s', evs) →
      s'.isConnected = true ∧ s'.connectionAttempts = 0 := by
  intro fuel
  induction fuel with
  | zero =>
    intro s lastError r s' evs h
    simp [connectLoop] at h
  | succ k ih =>
    intro s lastError r s' evs h
    simp only [connectLoop] at h
    cases hout : outcomes (s.connectionAttempts + 1) with
    | success =>
      rw [hout] at h
      simp only [Prod.mk.injEq] at h
      obtain ⟨-, h2, -⟩ := h
      subst h2
      exact ⟨rfl, rfl⟩
    | failure m =>
      rw [hout] at h
      simp only [] at h
      by_cases hk : 0 < k
      · rw [if_pos hk] at h
        exact ih _ _ _ _ _ h
      · rw [if_neg hk] at h
        simp at h

/-- The loop can increase the attempt counter by at most its fuel. -/
theorem connectLoop_attempts_le (outcomes : ℕ → AttemptResult) (audit : Bool) :
    ∀ (fuel : ℕ) (s : DbState) (lastError : Option String),
      ((connectLoop outcomes audit fuel s lastError).2.1).connectionAttempts ≤
        s.connectionAttempts + fuel := by
  intro fuel
  induction fuel with
  | zero => intro s lastError; simp [connectLoop]
  | succ k ih =>
    intro s lastError
    simp only [connectLoop]
    cases hout : outcomes (s.connectionAttempts + 1) with
    | success => simp
    | failure m =>
      simp only []
      by_cases hk : 0 < k
      · rw [if_pos hk]
        have := ih { s with connectionAttempts := s.connectionAttempts + 1 } (some m)
        simp only at this
        omega
      · rw [if_neg hk]
        simp

/-- A single connectDatabase call never pushes the attempt counter above
the larger of its entry value and the retries bound of the call. -/
theorem connectDatabase_attempts_le (retries : ℕ) (outcomes : ℕ → AttemptResult)
    (audit : Bool) (s : DbState) :
    ((connectDatabase retries outcomes audit s).2.1).connectionAttempts ≤
      max s.connectionAttempts retries := by
  unfold connectDatabase
  by_cases hc : s.isConnected = true
  · rw [if_pos hc]
    simp
  · rw [if_neg hc]
    have := connectLoop_attempts_le outcomes audit (retries - s.connectionAttempts) s none
    omega

-- ===========================================================================
-- C2: retry exhaustion
-- ===========================================================================

/-- Claim C2. Starting from the fresh state (zero attempts, not
connected), if every underlying attempt fails then connectDatabase with
retries R at least 1 performs exactly R attempts (the counter ends at R,
one increment per attempt), emits the ConnectionFailed audit event
(audit flag on), and throws the classified form of the last raw error,
with the counter equal to R at the moment of the throw. -/
theorem c2_retry_exhaustion (R : ℕ) (msgOf : ℕ → String) (outcomes : ℕ → AttemptResult)
    (hR : 1 ≤ R) (hfail : ∀ n, outcomes n = .failure (msgOf n)) :
    connectDatabase R outcomes true freshState =
      (.error (classifyConnectionError (msgOf R)),
       { freshState with connectionAttempts := R }, [DbEvent.CONNECTION_FAILED]) := by
  unfold connectDatabase
  rw [if_neg (by decide : ¬freshState.isConnected = true)]
  have hfuel : R - freshState.connectionAttempts = R := by simp [freshState]
  rw [hfuel, connectLoop_all_fail msgOf outcomes true hfail R freshState none hR]
  simp [freshState, auditIf]

/-- Witness for C2 with three attempts all failing with the same raw
message. -/
theorem c2_retry_exhaustion_witness :
    connectDatabase 3 (fun _ => .failure "connection refused by peer") true freshState =
      (.error (classifyConnectionError "connection refused by peer"),
       { freshState with connectionAttempts := 3 }, [DbEvent.CONNECTION_FAILED]) :=
  c2_retry_exhaustion 3 (fun _ => "connection refused by peer")
    (fun _ => .failure "connection refused by peer") (by decide) (fun _ => rfl)

-- ===========================================================================
-- C6: idempotent connect
-- ===========================================================================

/-- Claim C6. If the state reports connected, connectDatabase performs
zero additional attempts, re-validates nothing, and returns immediately
with the state unchanged and no event; consequently a second connect
after any successful connect is a no-op. -/
theorem c6_idempotent_connect :
    (∀ (retries : ℕ) (outcomes : ℕ → AttemptResult) (audit : Bool) (s : DbState),
      s.isConnected = true →
      connectDatabase retries outcomes audit s = (.ok (), s, [])) ∧
    (∀ (retries : ℕ) (outcomes : ℕ → AttemptResult) (audit : Bool) (s : DbState)
        (r : Unit) (s' : DbState) (evs : List DbEvent),
      connectDatabase retries outcomes audit s = (.ok r, s', evs) →
      ∀ (retries2 : ℕ) (outcomes2 : ℕ → AttemptResult) (audit2 : Bool),
        connectDatabase retries2 outcomes2 audit2 s' = (.ok (), s', [])) := by
  constructor
  · intro retries outcomes audit s h
    unfold connectDatabase
    rw [if_pos h]
  · intro retries outcomes audit s r s' evs h retries2 outcomes2 audit2
    have hconn : s'.isConnected = true := by
      unfold connectDatabase at h
      by_cases hc : s.isConnected = true
      · rw [if_pos hc] at h
        simp only [Prod.mk.injEq] at h
        obtain ⟨-, h2, -⟩ := h
        subst h2
        exact hc
      · rw [if_neg hc] at h
        exact (connectLoop_ok_connected outcomes audit _ s none r s' evs h).1
    unfold connectDatabase
    rw [if_pos hconn]

/-- Witness for C6: a connect on an already-connected state is a no-op,
and a second connect right after a successful first connect is a no-op. -/
theorem c6_idempotent_connect_witness :
    connectDatabase 3 (fun _ => .failure "x") true ⟨true, 1, 0, false⟩ =
      (.ok (), ⟨true, 1, 0, false⟩, []) ∧
    connectDatabase 5 (fun _ => .failure "y") false ⟨true, 1, 0, false⟩ =
      (.ok (), ⟨true, 1, 0, false⟩, []) :=
  ⟨c6_idempotent_connect.1 3 (fun _ => .failure "x") true ⟨true, 1, 0, false⟩ rfl,
   c6_idempotent_connect.2 1 (fun _ => .success) true freshState ()
     ⟨true, 1, 0, false⟩ [DbEvent.CONNECTION_ESTABLISHED] rfl 5
     (fun _ => .failure "y") false⟩

-- ===========================================================================
-- C9: attempt-counter invariant
-- ===========================================================================

/-- Claim C9. The attempt counter (a natural number, hence never
negative) never exceeds the retries bound: across any sequence of
connect calls whose retries values are all at most B, starting from a
counter at most B, the counter stays at most B; it is reset to 0 by
every successful connect performed from a non-connected state; and once
it reaches the retries bound without success (all attempts failing from
a counter below the bound) the call throws the classified error with the
counter equal to the bound. Calls supplying a smaller retries value than
the stored counter perform no attempts and leave the counter unchanged,
so the bound still holds. -/
theorem c9_attempts_invariant :
    (∀ (calls : List (ℕ × (ℕ → AttemptResult) × Bool)) (B : ℕ) (s : DbState),
      s.connectionAttempts ≤ B → (∀ c ∈ calls, c.1 ≤ B) →
      (runConnects calls s).connectionAttempts ≤ B) ∧
    (∀ (retries : ℕ) (outcomes : ℕ → AttemptResult) (audit : Bool) (s : DbState)
        (r : Unit) (s' : DbState) (evs : List DbEvent),
      s.isConnected = false →
      connectDatabase retries outcomes audit s = (.ok r, s', evs) →
      s'.connectionAttempts = 0) ∧
    (∀ (retries : ℕ) (msgOf : ℕ → String) (outcomes : ℕ → AttemptResult) (audit : Bool)
        (s : DbState), (∀ n, outcomes n = .failure (msgOf n)) →
      s.isConnected = false → s.connectionAttempts < retries →
      connectDatabase retries outcomes audit s =
        (.error (classifyConnectionError (msgOf retries)),
         { s with connectionAttempts := retries }, auditIf audit .CONNECTION_FAILED)) := by
  refine ⟨?_, ?_, ?_⟩
  · intro calls
    induction calls with
    | nil => intro B s h1 h2; simpa [runConnects] using h1
    | cons c cs ih =>
      intro B s h1 h2
      have hnew : ((connectDatabase c.1 c.2.1 c.2.2 s).2.1).connectionAttempts ≤ B := by
        have hstep := connectDatabase_attempts_le c.1 c.2.1 c.2.2 s
        have hc : c.1 ≤ B := h2 c (List.mem_cons_self c cs)
        have hmax := max_le h1 hc
        omega
      have hcs : ∀ x ∈ cs, x.1 ≤ B := fun x hx => h2 x (List.mem_cons_of_mem c hx)
      simpa [runConnects] using ih B _ hnew hcs
  · intro retries outcomes audit s r s' evs h0 h
    unfold connectDatabase at h
    rw [if_neg (by simp [h0])] at h
    exact (connectLoop_ok_connected outcomes audit _ s none r s' evs h).2
  · intro retries msgOf outcomes audit s hfail h0 hlt
    unfold connectDatabase
    rw [if_neg (by simp [h0])]
    rw [connectLoop_all_fail msgOf outcomes audit hfail _ s none (by omega)]
    have harith : s.connectionAttempts + (retries - s.connectionAttempts) = retries := by
      omega
    rw [harith]

/-- Witness for C9: a two-retry exhausting call keeps the counter at the
bound 2; a successful connect resets it to 0; a two-retry all-fail call
from the fresh state throws the classified error at counter 2. -/
theorem c9_attempts_invariant_witness :
    (runConnects [(2, fun _ => .failure "timeout", true)] freshState).connectionAttempts ≤ 2 ∧
    (⟨true, 1, 0, false⟩ : DbState).connectionAttempts = 0 ∧
    connectDatabase 2 (fun _ => .failure "server timeout") true freshState =
      (.error (classifyConnectionError "server timeout"),
       { freshState with connectionAttempts := 2 }, auditIf true .CONNECTION_FAILED) :=
  ⟨c9_attempts_invariant.1 [(2, fun _ => .failure "timeout", true)] 2 freshState
     (by decide)
     (fun c hc => by rw [List.mem_singleton] at hc; subst hc; exact Nat.le_refl 2),
   c9_attempts_invariant.2.1 1 (fun _ => .success) true freshState ()
     ⟨true, 1, 0, false⟩ [DbEvent.CONNECTION_ESTABLISHED] rfl rfl,
   c9_attempts_invariant.2.2 2 (fun _ => "server timeout")
     (fun _ => .failure "server timeout") true freshState (fun _ => rfl) rfl
     (by decide)⟩

-- ===========================================================================
-- C10: stale attempt counter on re-entry
-- ===========================================================================

/-- Claim C10. After an exhausted connect the counter stays at the
retries value (it is not reset); any subsequent connect whose retries
bound is at most the stored counter performs zero new attempts and
immediately throws the generic connection-timeout DatabaseError whose
recorded cause is only the placeholder text for an absent error, leaving
state and event trace untouched. -/
theorem c10_stale_counter :
    (∀ (retries : ℕ) (msgOf : ℕ → String) (outcomes : ℕ → AttemptResult) (audit : Bool)
        (s : DbState), (∀ n, outcomes n = .failure (msgOf n)) →
      s.isConnected = false → s.connectionAttempts < retries →
      ((connectDatabase retries outcomes audit s).2.1).connectionAttempts = retries) ∧
    (∀ (retries : ℕ) (outcomes : ℕ → AttemptResult) (audit : Bool) (s : DbState),
      s.isConnected = false → retries ≤ s.connectionAttempts →
      connectDatabase retries outcomes audit s =
        (.error ⟨CONNECTION_TIMEOUT, "Unknown error occurred"⟩, s, [])) := by
  constructor
  · intro retries msgOf outcomes audit s hfail h0 hlt
    unfold connectDatabase
    rw [if_neg (by simp [h0])]
    rw [connectLoop_all_fail msgOf outcomes audit hfail _ s none (by omega)]
    simp
    omega
  · intro retries outcomes audit s h0 hle
    unfold connectDatabase
    rw [if_neg (by simp [h0])]
    have hz : retries - s.connectionAttempts = 0 := by omega
    rw [hz]
    rfl

/-- Witness for C10: exhausting two retries leaves the counter at 2, and
a follow-up call with a single retry against the stale counter 2 makes
no attempt and throws the placeholder-cause timeout error. -/
theorem c10_stale_counter_witness :
    ((connectDatabase 2 (fun _ => .failure "econnrefused") true
        freshState).2.1).connectionAttempts = 2 ∧
    connectDatabase 1 (fun _ => .failure "econnrefused") true ⟨false, 0, 2, false⟩ =
      (.error ⟨CONNECTION_TIMEOUT, "Unknown error occurred"⟩, ⟨false, 0, 2, false⟩, []) :=
  ⟨c10_stale_counter.1 2 (fun _ => "econnrefused") (fun _ => .failure "econnrefused")
     true freshState (fun _ => rfl) rfl (by decide),
   c10_stale_counter.2 1 (fun _ => .failure "econnrefused") true ⟨false, 0, 2, false⟩
     rfl (by decide)⟩

-- ===========================================================================
-- C7: health check never throws, fails fast, times out
-- ===========================================================================

/-- Claim C7. checkDatabaseHealth is a total function into structured
results (it has no throwing path): when the internal flag is false or
the driver ready-state is not 1 it returns unhealthy without issuing a
probe; when connected and the probe never resolves it returns unhealthy
with the timeout error and a response time bounded by the fixed
health-check timeout instead of hanging; and every unhealthy result
carries an error value. -/
theorem c7_health_check :
    (∀ (s : DbState) (dbAvailable : Bool) (probe : ProbeOutcome),
      s.connectedFlag = false ∨ s.readyState ≠ 1 →
      checkDatabaseHealth s dbAvailable probe =
        (⟨false, none, some "Database is not connected"⟩, false)) ∧
    (∀ s : DbState, s.isConnected = true →
      checkDatabaseHealth s true .hangs =
        (⟨false, some HEALTH_CHECK_TIMEOUT_MS, some "Health check timeout"⟩, true)) ∧
    (∀ (s : DbState) (dbAvailable : Bool) (probe : ProbeOutcome),
      (checkDatabaseHealth s dbAvailable probe).1.isHealthy = false →
      (checkDatabaseHealth s dbAvailable probe).1.error.isSome = true) := by
  refine ⟨?_, ?_, ?_⟩
  · intro s dbAvailable probe h
    rcases h with h | h
    · simp [checkDatabaseHealth, DbState.isConnected, h]
    · simp [checkDatabaseHealth, DbState.isConnected, h]
  · intro s h
    have h1 : s.connectedFlag = true := by
      simp [DbState.isConnected] at h
      exact h.1
    have h2 : s.readyState = 1 := by
      simp [DbState.isConnected] at h
      exact h.2
    simp [checkDatabaseHealth, DbState.isConnected, h1, h2]
  · intro s dbAvailable probe
    unfold checkDatabaseHealth
    split_ifs <;> (try simp) <;> cases probe <;> simp <;> split_ifs <;> simp

/-- Witness for C7: the fresh (disconnected) state fails fast with no
probe for a hanging probe; a connected state with a hanging probe
reports the timeout within the fixed bound; an unhealthy result carries
an error value. -/
theorem c7_health_check_witness :
    checkDatabaseHealth freshState true .hangs =
      (⟨false, none, some "Database is not connected"⟩, false) ∧
    checkDatabaseHealth ⟨true, 1, 0, false⟩ true .hangs =
      (⟨false, some HEALTH_CHECK_TIMEOUT_MS, some "Health check timeout"⟩, true) ∧
    (checkDatabaseHealth freshState true .hangs).1.error.isSome = true :=
  ⟨c7_health_check.1 freshState true .hangs (Or.inl rfl),
   c7_health_check.2.1 ⟨true, 1, 0, false⟩ rfl,
   c7_health_check.2.2 freshState true .hangs rfl⟩
